import Mathlib

/-!
Verification of `src/server/checks/Specification.js` (zappr specification check).

The development is organised as follows.

1. A small regular-expression engine over character classes (`RE`), used to
   embed the two JavaScript regex literals `ISSUE_PATTERN` and `URL_PATTERN`
   faithfully.  Matching is by Brzozowski derivatives (`RE.rmatch`), with the
   usual correctness lemmas characterising the language of each constructor.
2. The data model of the check: configuration objects, the GitHub payload
   fields the check reads, the commit status record, and an effect trace for
   the two external collaborator calls (template fetch, status write).
3. The pattern matchers, the three evaluators (`validateTitle`,
   `validateTemplate`, `validateBody`), the orchestrator `validate` and the
   entry point `execute`, each translated from the source.
4. Theorems settling the claims, with witnesses and counterexamples.
-/

/-! ## Part 1: regular expressions over character classes

JavaScript character classes such as `[^\s()<>]` denote infinite sets of
characters, so the atoms of our regex type are boolean predicates on `Char`
rather than single characters. -/

/-- Regular expressions whose atoms are character classes. -/
inductive RE where
  | nul : RE
  | eps : RE
  | cls : (Char → Bool) → RE
  | cat : RE → RE → RE
  | alt : RE → RE → RE
  | star : RE → RE

/-- Does the expression accept the empty word? -/
def RE.nullable : RE → Bool
  | .nul => false
  | .eps => true
  | .cls _ => false
  | .cat r s => r.nullable && s.nullable
  | .alt r s => r.nullable || s.nullable
  | .star _ => true

/-- Brzozowski derivative with respect to one character. -/
def RE.deriv : RE → Char → RE
  | .nul, _ => .nul
  | .eps, _ => .nul
  | .cls p, c => if p c then .eps else .nul
  | .cat r s, c =>
      if r.nullable then .alt (.cat (r.deriv c) s) (s.deriv c)
      else .cat (r.deriv c) s
  | .alt r s, c => .alt (r.deriv c) (s.deriv c)
  | .star r, c => .cat (r.deriv c) (.star r)

/-- Derivative-based matching: accept a word by repeated derivation. -/
def RE.rmatch : RE → List Char → Bool
  | r, [] => r.nullable
  | r, c :: w => (r.deriv c).rmatch w

/-- One-or-more repetition, as the regex `r r*`. -/
def RE.plus (r : RE) : RE := .cat r (.star r)

/-- Zero-or-one repetition. -/
def RE.opt (r : RE) : RE := .alt .eps r

/-- A single literal character, as a one-element class. -/
def chrRE (c : Char) : RE := .cls (fun x => x == c)

theorem nul_rmatch (w : List Char) : RE.nul.rmatch w = false := by
  induction w with
  | nil => rfl
  | cons c w ih => simpa [RE.rmatch, RE.deriv] using ih

theorem eps_rmatch_iff (w : List Char) : RE.eps.rmatch w = true ↔ w = [] := by
  cases w with
  | nil => simp [RE.rmatch, RE.nullable]
  | cons c w => simp [RE.rmatch, RE.deriv, nul_rmatch]

theorem cls_rmatch_iff (p : Char → Bool) (w : List Char) :
    (RE.cls p).rmatch w = true ↔ ∃ c, w = [c] ∧ p c = true := by
  cases w with
  | nil => simp [RE.rmatch, RE.nullable]
  | cons c w =>
    cases w with
    | nil =>
      by_cases h : p c = true <;>
        simp [RE.rmatch, RE.deriv, RE.nullable, h]
    | cons d w =>
      by_cases h : p c = true <;>
        simp [RE.rmatch, RE.deriv, h, nul_rmatch, eps_rmatch_iff]

theorem alt_rmatch_iff (r s : RE) (w : List Char) :
    (RE.alt r s).rmatch w = true ↔ r.rmatch w = true ∨ s.rmatch w = true := by
  induction w generalizing r s with
  | nil => simp [RE.rmatch, RE.nullable]
  | cons c w ih => simpa [RE.rmatch, RE.deriv] using ih (r.deriv c) (s.deriv c)

theorem cat_rmatch_iff (r s : RE) (w : List Char) :
    (RE.cat r s).rmatch w = true ↔
      ∃ u v, w = u ++ v ∧ r.rmatch u = true ∧ s.rmatch v = true := by
  induction w generalizing r s with
  | nil =>
    constructor
    · intro h
      refine ⟨[], [], rfl, ?_, ?_⟩ <;>
        simp only [RE.rmatch] <;>
        simp only [RE.rmatch, RE.nullable, Bool.and_eq_true] at h <;>
        tauto
    · rintro ⟨u, v, huv, hu, hv⟩
      rcases List.append_eq_nil.mp huv.symm with ⟨hu0, hv0⟩
      subst hu0; subst hv0
      simp only [RE.rmatch] at hu hv
      simp [RE.rmatch, RE.nullable, hu, hv]
  | cons c w ih =>
    simp only [RE.rmatch, RE.deriv]
    by_cases hn : r.nullable = true
    · rw [if_pos hn, alt_rmatch_iff, ih]
      constructor
      · rintro (⟨u, v, huv, hu, hv⟩ | h)
        · exact ⟨c :: u, v, by simp [huv], by simpa [RE.rmatch] using hu, hv⟩
        · exact ⟨[], c :: w, rfl, by simpa [RE.rmatch] using hn,
            by simpa [RE.rmatch] using h⟩
      · rintro ⟨u, v, huv, hu, hv⟩
        cases u with
        | nil =>
          right
          simp only [List.nil_append] at huv
          subst huv
          simpa [RE.rmatch] using hv
        | cons b u =>
          left
          rw [List.cons_append, List.cons_eq_cons] at huv
          obtain ⟨hb, hw⟩ := huv
          subst hb
          exact ⟨u, v, hw, by simpa [RE.rmatch] using hu, hv⟩
    · rw [if_neg hn, ih]
      constructor
      · rintro ⟨u, v, huv, hu, hv⟩
        exact ⟨c :: u, v, by simp [huv], by simpa [RE.rmatch] using hu, hv⟩
      · rintro ⟨u, v, huv, hu, hv⟩
        cases u with
        | nil =>
          simp only [RE.rmatch] at hu
          exact absurd hu hn
        | cons b u =>
          rw [List.cons_append, List.cons_eq_cons] at huv
          obtain ⟨hb, hw⟩ := huv
          subst hb
          exact ⟨u, v, hw, by simpa [RE.rmatch] using hu, hv⟩

theorem star_rmatch_iff (r : RE) :
    ∀ w : List Char, (RE.star r).rmatch w = true ↔
      ∃ S : List (List Char), w = S.flatten ∧ ∀ t ∈ S, t ≠ [] ∧ r.rmatch t = true := by
  intro w
  have IH := fun t (_ : List.length t < List.length w) => star_rmatch_iff r t
  constructor
  · cases w with
    | nil => exact fun _ => ⟨[], by simp⟩
    | cons c w =>
      simp only [RE.rmatch, RE.deriv]
      rw [cat_rmatch_iff]
      rintro ⟨u, v, huv, hu, hv⟩
      have hlen : v.length < (c :: w).length := by
        simp only [huv, List.length_cons, List.length_append]
        omega
      rcases (IH v hlen).mp hv with ⟨S, hS, hmem⟩
      refine ⟨(c :: u) :: S, by simp [huv, hS], ?_⟩
      intro t ht
      rcases List.mem_cons.mp ht with h | h
      · subst h
        exact ⟨by simp, by simpa [RE.rmatch] using hu⟩
      · exact hmem t h
  · rintro ⟨S, hS, hmem⟩
    cases w with
    | nil => rfl
    | cons c w =>
      simp only [RE.rmatch, RE.deriv]
      rw [cat_rmatch_iff]
      induction S with
      | nil => simp at hS
      | cons t U _ =>
        cases t with
        | nil =>
          exact absurd rfl (hmem [] (by simp)).1
        | cons b t =>
          simp only [List.flatten, List.cons_append, List.cons_eq_cons] at hS
          obtain ⟨hb, hw⟩ := hS
          subst hb
          refine ⟨t, U.flatten, hw, ?_, ?_⟩
          · have := (hmem (c :: t) (by simp)).2
            simpa [RE.rmatch] using this
          · have hlen : U.flatten.length < (c :: w).length := by
              simp only [hw, List.length_cons, List.length_append,
                List.length_flatten]
              omega
            rw [IH U.flatten hlen]
            exact ⟨U, rfl, fun t ht => hmem t (by simp [ht])⟩
  termination_by w => w.length

theorem chr_rmatch_iff (c : Char) (w : List Char) :
    (chrRE c).rmatch w = true ↔ w = [c] := by
  rw [chrRE, cls_rmatch_iff]
  constructor
  · rintro ⟨d, hw, hd⟩
    simp only [beq_iff_eq] at hd
    simp [hw, hd]
  · intro h
    exact ⟨c, h, by simp⟩

theorem flatten_map_singleton (w : List Char) :
    (w.map (fun c => [c])).flatten = w := by
  induction w with
  | nil => rfl
  | cons c w ih => simp [ih]

theorem star_cls_rmatch_iff (p : Char → Bool) (w : List Char) :
    (RE.star (RE.cls p)).rmatch w = true ↔ ∀ c ∈ w, p c = true := by
  rw [star_rmatch_iff]
  constructor
  · rintro ⟨S, hS, hmem⟩ c hc
    subst hS
    rcases List.mem_flatten.mp hc with ⟨t, htS, hct⟩
    rcases (cls_rmatch_iff p t).mp (hmem t htS).2 with ⟨d, htd, hd⟩
    subst htd
    rcases List.mem_singleton.mp hct with rfl
    exact hd
  · intro h
    refine ⟨w.map (fun c => [c]), (flatten_map_singleton w).symm, ?_⟩
    intro t ht
    rcases List.mem_map.mp ht with ⟨c, hc, rfl⟩
    exact ⟨by simp, (cls_rmatch_iff p [c]).mpr ⟨c, rfl, h c hc⟩⟩

theorem plus_cls_rmatch_iff (p : Char → Bool) (w : List Char) :
    ((RE.cls p).plus).rmatch w = true ↔ w ≠ [] ∧ ∀ c ∈ w, p c = true := by
  rw [RE.plus, cat_rmatch_iff]
  constructor
  · rintro ⟨u, v, huv, hu, hv⟩
    rcases (cls_rmatch_iff p u).mp hu with ⟨c, hc, hpc⟩
    subst hc
    subst huv
    have hvall := (star_cls_rmatch_iff p v).mp hv
    refine ⟨by simp, ?_⟩
    intro d hd
    rcases List.mem_cons.mp (by simpa using hd) with h | h
    · subst h; exact hpc
    · exact hvall d h
  · rintro ⟨hne, hall⟩
    cases w with
    | nil => exact absurd rfl hne
    | cons c w =>
      refine ⟨[c], w, rfl, ?_, ?_⟩
      · exact (cls_rmatch_iff p [c]).mpr ⟨c, rfl, hall c (by simp)⟩
      · exact (star_cls_rmatch_iff p w).mpr (fun d hd => hall d (by simp [hd]))

theorem opt_rmatch_iff (r : RE) (w : List Char) :
    (r.opt).rmatch w = true ↔ w = [] ∨ r.rmatch w = true := by
  rw [RE.opt, alt_rmatch_iff, eps_rmatch_iff]

/-! ## Part 2: the pattern matchers of `Specification.js`

Translations of the module-level constants and predicate functions:

```js
const DEFAULT_REQUIRED_LENGTH = 8
const ISSUE_PATTERN = /^(?:[-\w]+\/[-\w]+)?#\d+$/
const URL_PATTERN = /\b((?:[a-z][\w-]+:(?:\/{1,3}|[a-z0-9%])|www\d{0,3}[.]|
  [a-z0-9.\-]+[.][a-z]{2,4}\/)(?:[^\s()<>]+|\(([^\s()<>]+|(\([^\s()<>]+\)))*\))+
  (?:\(([^\s()<>]+|(\([^\s()<>]+\)))*\)|[^\s`!()\[\]\x7b\x7d;:'".,<>?«»“”‘’]))/i
const isLongEnough = (str, requiredLength) => (str || '').length > requiredLength
const containsPattern = pattern => str => (str || '').split(' ')
  .some(s => pattern.test(s))
const containsUrl = containsPattern(URL_PATTERN)
const containsIssueNumber = containsPattern(ISSUE_PATTERN)
```
-/

def DEFAULT_REQUIRED_LENGTH : Nat := 8

/-- The JavaScript word-character class `\w`, i.e. `[A-Za-z0-9_]`. -/
def isWordChar (c : Char) : Bool := c.isAlphanum || c = '_'

/-- The character class `[-\w]` used in `ISSUE_PATTERN`. -/
def isWordDash (c : Char) : Bool := c.isAlphanum || c = '_' || c = '-'

/-- The JavaScript whitespace class `\s` (code points, per ECMA-262). -/
def isJsSpace (c : Char) : Bool :=
  c.toNat = 9 || c.toNat = 10 || c.toNat = 11 || c.toNat = 12 || c.toNat = 13 ||
  c.toNat = 32 || c.toNat = 160 || c.toNat = 0x1680 ||
  (0x2000 ≤ c.toNat && c.toNat ≤ 0x200a) ||
  c.toNat = 0x2028 || c.toNat = 0x2029 || c.toNat = 0x202f ||
  c.toNat = 0x205f || c.toNat = 0x3000 || c.toNat = 0xfeff

/-- `[a-z]` under the `/i` flag: any ASCII letter. -/
def isAsciiLetter (c : Char) : Bool :=
  ('a' ≤ c && c ≤ 'z') || ('A' ≤ c && c ≤ 'Z')

/-- `[a-z0-9%]` under the `/i` flag. -/
def isLetterDigitPct (c : Char) : Bool := isAsciiLetter c || c.isDigit || c = '%'

/-- `[a-z0-9.\-]` under the `/i` flag. -/
def isLetterDigitDotDash (c : Char) : Bool :=
  isAsciiLetter c || c.isDigit || c = '.' || c = '-'

/-- `[^\s()<>]`, the characters allowed inside the URL body. -/
def isUrlBodyChar (c : Char) : Bool :=
  !(isJsSpace c || c = '(' || c = ')' || c = '<' || c = '>')

/-- The characters excluded from ending a URL: the class
`[^\s`!()\[\]\x7b\x7d;:'".,<>?«»“”‘’]` (codes are used for the characters that
are quoting or bracketing delimiters). -/
def urlTailExcluded : List Char :=
  [Char.ofNat 96, '!', '(', ')', '[', ']', Char.ofNat 123, Char.ofNat 125,
   ';', ':', Char.ofNat 39, Char.ofNat 34, '.', ',', '<', '>', '?',
   Char.ofNat 171, Char.ofNat 187, Char.ofNat 8220, Char.ofNat 8221,
   Char.ofNat 8216, Char.ofNat 8217]

/-- A character that may legally end a URL match. -/
def isUrlTailChar (c : Char) : Bool :=
  !(isJsSpace c || urlTailExcluded.contains c)

/-- A literal character under the `/i` flag (used for the `www` literal). -/
def chrInsensitive (c : Char) : RE := .cls (fun x => x.toLower == c)

/-- `r{1,3}`, expanded as `r (r (r)?)?`. -/
def rep1to3 (r : RE) : RE := .cat r (RE.opt (.cat r (RE.opt r)))

/-- `r{0,3}`. -/
def rep0to3 (r : RE) : RE := RE.opt (rep1to3 r)

/-- `r{2,4}`, expanded as `r r (r (r)?)?`. -/
def rep2to4 (r : RE) : RE := .cat r (.cat r (RE.opt (.cat r (RE.opt r))))

/-- `^(?:[-\w]+\/[-\w]+)?#\d+$`: an optional `owner/repo` prefix, then `#` and
one or more digits.  The JavaScript pattern is anchored to the whole string,
so the regex body itself is the language to match. -/
def ISSUE_PATTERN : RE :=
  .cat
    (RE.opt (.cat (RE.plus (.cls isWordDash))
      (.cat (chrRE '/') (RE.plus (.cls isWordDash)))))
    (.cat (chrRE '#') (RE.plus (.cls Char.isDigit)))

/-- First scheme alternative `[a-z][\w-]+:(?:\/{1,3}|[a-z0-9%])`. -/
def urlScheme1 : RE :=
  .cat (.cls isAsciiLetter)
    (.cat (RE.plus (.cls isWordDash))
      (.cat (chrRE ':')
        (.alt (rep1to3 (chrRE '/')) (.cls isLetterDigitPct))))

/-- Second scheme alternative `www\d{0,3}[.]`. -/
def urlScheme2 : RE :=
  .cat (chrInsensitive 'w')
    (.cat (chrInsensitive 'w')
      (.cat (chrInsensitive 'w')
        (.cat (rep0to3 (.cls Char.isDigit)) (chrRE '.'))))

/-- Third scheme alternative `[a-z0-9.\-]+[.][a-z]{2,4}\/`. -/
def urlScheme3 : RE :=
  .cat (RE.plus (.cls isLetterDigitDotDash))
    (.cat (chrRE '.') (.cat (rep2to4 (.cls isAsciiLetter)) (chrRE '/')))

/-- `[^\s()<>]+`. -/
def urlPlain : RE := RE.plus (.cls isUrlBodyChar)

/-- `\(([^\s()<>]+|(\([^\s()<>]+\)))*\)`: one balanced parenthesised group. -/
def urlParenGroup : RE :=
  .cat (chrRE '(')
    (.cat (RE.star (.alt urlPlain (.cat (chrRE '(') (.cat urlPlain (chrRE ')')))))
      (chrRE ')'))

/-- The body of `URL_PATTERN` after the leading `\b`. -/
def URL_PATTERN : RE :=
  .cat (.alt urlScheme1 (.alt urlScheme2 urlScheme3))
    (.cat (RE.plus (.alt urlPlain urlParenGroup))
      (.alt urlParenGroup (.cls isUrlTailChar)))

/-- Is position `i` of `w` (counting in characters, `0 ≤ i ≤ w.length`) a
word boundary `\b`?  Positions outside the string count as non-word. -/
def isWordAt (w : List Char) (i : Nat) : Bool :=
  match w.get? i with
  | some c => isWordChar c
  | none => false

def boundaryAt (w : List Char) (i : Nat) : Bool :=
  match i with
  | 0 => isWordAt w 0
  | j + 1 => isWordAt w j != isWordAt w (j + 1)

/-- Anchored test: the whole string is in the pattern's language.  Used for
`ISSUE_PATTERN.test`, whose pattern carries explicit `^`/`$` anchors. -/
def testAnchored (r : RE) (s : List Char) : Bool := r.rmatch s

/-- Unanchored `RegExp.test` for a pattern starting with `\b`: some start
position satisfies the word-boundary assertion and matches a prefix of the
rest of the string (a prefix match is a whole match of `r · any*`). -/
def testSearchWordBoundary (r : RE) (s : List Char) : Bool :=
  (List.range (s.length + 1)).any (fun i =>
    boundaryAt s i &&
      (RE.cat r (.star (.cls (fun _ => true)))).rmatch (s.drop i))

/-- JavaScript `String.prototype.split` with a single-character separator:
empty fields are kept, and the result always has at least one field. -/
def splitOnChar (sep : Char) : List Char → List (List Char)
  | [] => [[]]
  | c :: w =>
    if c = sep then [] :: splitOnChar sep w
    else
      match splitOnChar sep w with
      | [] => [[c]]
      | t :: ts => (c :: t) :: ts

/-- `containsPattern`: split the string on the space character and test each
token.  (`(str || '')` only defaults a missing string; the callers below
always pass a string.) -/
def containsPattern (test : List Char → Bool) (str : String) : Bool :=
  (splitOnChar ' ' str.data).any (fun s => test s)

def containsUrl : String → Bool :=
  containsPattern (fun s => testSearchWordBoundary URL_PATTERN s)

def containsIssueNumber : String → Bool :=
  containsPattern (fun s => testAnchored ISSUE_PATTERN s)

def isLongEnough (str : String) (requiredLength : Nat) : Bool :=
  str.length > requiredLength

example : containsIssueNumber "fixes #12" = true := by decide
example : containsIssueNumber "fixes owner/repo#12 now" = true := by decide
example : containsIssueNumber "fixes #12a" = false := by decide
example : containsIssueNumber "see" = false := by decide
example : containsUrl "x" = false := by decide
example : containsUrl "www.x.de" = true := by decide

/-! ## Part 3: data model and the `Specification` check

The check reads these pieces of its inputs:

* from the hook payload: `action`, `pull_request` (possibly absent) with
  `state`, `number`, `title`, `body`, `head.sha`, and `repository` with
  `name`, `full_name`, `owner.login`;
* from the config: `specification.title['minimum-length']`,
  `specification.body['minimum-length' | 'contains-url' |
  'contains-issue-number']`, `specification.template['was-adjusted']`.

Absent JSON fields are `Option.none`; the JavaScript destructuring defaults
(`= {}`, `= true`, `= 8`, `= ''`) become `Option.getD`.  The two external
collaborator calls are modelled as an effect trace: `Effect.fetchTemplate`
records the call to `readPullRequestTemplate` being issued, and
`Effect.setStatus` records a call to `setCommitStatus` with its payload.
The outcome of the template fetch is an input `fetch` to the model:
`.error e` is a rejected fetch (network/auth failure with message `e`),
`.ok none` a resolved fetch that found no template (falsy result), and
`.ok (some t)` a resolved fetch returning template text `t`. -/

/-- The `{enabled, length}` object stored under a `minimum-length` key. -/
structure MinLenCfg where
  enabled : Option Bool
  length : Option Nat
deriving DecidableEq

/-- `specification.title`: holds the `minimum-length` entry. -/
structure TitleChecks where
  minimumLength : Option MinLenCfg
deriving DecidableEq

/-- `specification.body`: `minimum-length`, `contains-url`,
`contains-issue-number` entries. -/
structure BodyChecks where
  minimumLength : Option MinLenCfg
  containsUrlEnabled : Option Bool
  containsIssueNumberEnabled : Option Bool
deriving DecidableEq

/-- `specification.template`: the `was-adjusted` entry. -/
structure TemplateChecks where
  wasAdjusted : Option Bool
deriving DecidableEq

/-- The `specification` section of the config. -/
structure SpecificationCfg where
  title : Option TitleChecks
  body : Option BodyChecks
  template : Option TemplateChecks
deriving DecidableEq

/-- The whole zappr config object, as far as this check reads it. -/
structure Config where
  specification : Option SpecificationCfg
deriving DecidableEq

def emptyMinLenCfg : MinLenCfg := ⟨none, none⟩
def emptyTitleChecks : TitleChecks := ⟨none⟩
def emptyBodyChecks : BodyChecks := ⟨none, none, none⟩
def emptyTemplateChecks : TemplateChecks := ⟨none⟩
def emptySpecificationCfg : SpecificationCfg := ⟨none, none, none⟩
def defaultConfig : Config := ⟨none⟩

/-- The GitHub pull-request object, as far as this check reads it.
`title` and `body` may be absent (the destructuring defaults them to `''`). -/
structure PullRequest where
  state : String
  number : Nat
  title : Option String
  body : Option String
  headSha : String
deriving DecidableEq

/-- The GitHub repository object, as far as this check reads it. -/
structure Repository where
  name : String
  fullName : String
  ownerLogin : String
deriving DecidableEq

/-- A webhook payload: `action`, optional `pull_request`, `repository`. -/
structure HookPayload where
  action : String
  pullRequest : Option PullRequest
  repository : Repository
deriving DecidableEq

/-- The payload handed to `setCommitStatus`, built by the `status` helper. -/
structure CommitStatus where
  description : String
  state : String
  context : String
deriving DecidableEq

/-- `const status = (description, state = 'success') => ({...})`. -/
def status (description : String) (state : String) : CommitStatus :=
  { description := description, state := state,
    context := "zappr/pr/specification" }

/-- One call to an external collaborator, in the order the calls are made. -/
inductive Effect where
  | fetchTemplate : Effect
  | setStatus : CommitStatus → Effect
deriving DecidableEq

/-- `const ACTIONS = ['opened', 'edited', 'reopened', 'synchronize']`. -/
def ACTIONS : List String := ["opened", "edited", "reopened", "synchronize"]

/-- JavaScript `String.prototype.trim`, which strips the `\s` class. -/
def trimJs (w : List Char) : List Char :=
  ((w.dropWhile isJsSpace).reverse.dropWhile isJsSpace).reverse

/-- `_differsFromPrTemplate(content, template)`: true when the trimmed
content is not equal to the trimmed template. -/
def differsFromPrTemplate (content template : String) : Bool :=
  !(trimJs content.data == trimJs template.data)

/-- Effective `enabled` of the title's `minimum-length` check
(default `true`). -/
def titleLengthEnabled (checks : TitleChecks) : Bool :=
  ((checks.minimumLength.getD emptyMinLenCfg).enabled).getD true

/-- Effective required length of the title check (default 8). -/
def titleRequiredLength (checks : TitleChecks) : Nat :=
  ((checks.minimumLength.getD emptyMinLenCfg).length).getD DEFAULT_REQUIRED_LENGTH

/-- `_validateTitle(title, checks)`: throws when the length check is enabled
and the title is not long enough. -/
def validateTitle (title : String) (checks : TitleChecks) : Except String Unit :=
  if titleLengthEnabled checks && !(isLongEnough title (titleRequiredLength checks)) then
    .error ("PR's title is too short (" ++ toString title.length ++ "/" ++
      toString (titleRequiredLength checks) ++ ")")
  else
    .ok ()

/-- `_validateTemplate(body, user, repo, token, checks)`: awaits the template
fetch (a rejected fetch re-throws its error), passes when no template was
found, and otherwise throws when `was-adjusted` is truthy and
`_differsFromPrTemplate(body, template)` holds. -/
def validateTemplate (body : String) (fetch : Except String (Option String))
    (checks : TemplateChecks) : Except String Unit :=
  match fetch with
  | .error e => .error e
  | .ok none => .ok ()
  | .ok (some template) =>
    if (checks.wasAdjusted.getD false) && differsFromPrTemplate body template then
      .error "PR's body is the same as template"
    else
      .ok ()

/-- Effective `enabled` of the body's `minimum-length` check (default `true`). -/
def bodyLengthEnabled (checks : BodyChecks) : Bool :=
  ((checks.minimumLength.getD emptyMinLenCfg).enabled).getD true

/-- Effective required length of the body check (default 8). -/
def bodyRequiredLength (checks : BodyChecks) : Nat :=
  ((checks.minimumLength.getD emptyMinLenCfg).length).getD DEFAULT_REQUIRED_LENGTH

/-- Effective `contains-url` toggle (default `true`). -/
def bodyUrlEnabled (checks : BodyChecks) : Bool :=
  checks.containsUrlEnabled.getD true

/-- Effective `contains-issue-number` toggle (default `true`). -/
def bodyIssueEnabled (checks : BodyChecks) : Bool :=
  checks.containsIssueNumberEnabled.getD true

/-- One step of the `reduce` in `_validateBody`: the accumulator is
`[success, failedChecks]`, the item `(checkName, enabled, result)`. -/
def bodyReduceStep (acc : Bool × List String) (item : String × Bool × Bool) :
    Bool × List String :=
  if item.2.1 then
    (acc.1 || item.2.2,
     if item.2.2 then acc.2 else acc.2 ++ ["'" ++ item.1 ++ "'"])
  else
    acc

/-- The `checksMapping` of `_validateBody` in the forced priority order
`[CONTAINS_ISSUE_NUMBER, CONTAINS_URL, MINIMUM_LENGTH]`: each entry is the
check's name, its enablement, and its result on `body`. -/
def bodyChecksInOrder (body : String) (checks : BodyChecks) :
    List (String × Bool × Bool) :=
  [("contains-issue-number", bodyIssueEnabled checks, containsIssueNumber body),
   ("contains-url", bodyUrlEnabled checks, containsUrl body),
   ("minimum-length", bodyLengthEnabled checks,
     isLongEnough body (bodyRequiredLength checks))]

/-- `_validateBody(body, checks)`: the body passes when some enabled check
succeeded; otherwise it throws naming `failedChecks[0]` (the stringification
of `undefined` when no check was enabled). -/
def validateBody (body : String) (checks : BodyChecks) : Except String Unit :=
  let result := (bodyChecksInOrder body checks).foldl bodyReduceStep (false, [])
  if !result.1 then
    .error ("PR's body failed check " ++ result.2.headD "undefined")
  else
    .ok ()

/-- The `specification` config sections as `validate` destructures them. -/
def titleChecksOf (config : Config) : TitleChecks :=
  ((config.specification.getD emptySpecificationCfg).title).getD emptyTitleChecks

def bodyChecksOf (config : Config) : BodyChecks :=
  ((config.specification.getD emptySpecificationCfg).body).getD emptyBodyChecks

def templateChecksOf (config : Config) : TemplateChecks :=
  ((config.specification.getD emptySpecificationCfg).template).getD emptyTemplateChecks

/-- `validate(config, pr, repo, token)`, as the trace of collaborator calls.

The `Promise.all([...])` array literal evaluates its elements in order:

* `_validateTitle` is synchronous — when it throws, the exception is caught
  by the surrounding `try` before `_validateTemplate` is even called, so no
  template fetch is issued;
* calling `_validateTemplate` issues the template fetch (the async function
  body runs up to its first `await` at the call) and returns a pending
  promise;
* `_validateBody` is synchronous — when it throws, the `catch` runs with its
  error while the template promise is left pending, so the body's message
  wins over any template failure;
* otherwise `Promise.all` settles with the template promise: a rejected
  fetch or a template-equality failure become the caught error `e`.

The `catch` turns any caught error into a failure status write with the
error's message; on success a fixed success status is written. -/
def validate (config : Config) (pr : PullRequest) (fetch : Except String (Option String)) :
    List Effect :=
  let title := pr.title.getD ""
  let body := pr.body.getD ""
  match validateTitle title (titleChecksOf config) with
  | .error e => [Effect.setStatus (status e "failure")]
  | .ok _ =>
    Effect.fetchTemplate ::
    match validateBody body (bodyChecksOf config) with
    | .error e => [Effect.setStatus (status e "failure")]
    | .ok _ =>
      match validateTemplate body fetch (templateChecksOf config) with
      | .error e => [Effect.setStatus (status e "failure")]
      | .ok _ =>
        [Effect.setStatus (status "PR has passed specification checks" "success")]

/-- The error the ineligible-event branch raises when the payload has no
pull-request object: its log line reads `pr.number` on `undefined`. -/
def prUndefinedTypeError : String :=
  "TypeError: Cannot read property 'number' of undefined"

/-- `execute(config, hookPayload, token)`.

The guard is `ACTIONS.indexOf(action) === -1 || !pr || 'open' !== pr.state`.
When the guard holds the branch logs and returns without calling any
collaborator; the log line dereferences `pr.number`, which throws a
`TypeError` when `pull_request` is absent from the payload (and the guard
necessarily holds then, `!pr` being true).  Otherwise `validate` runs. -/
def execute (config : Config) (hookPayload : HookPayload)
    (fetch : Except String (Option String)) : Except String (List Effect) :=
  match hookPayload.pullRequest with
  | none => .error prUndefinedTypeError
  | some pr =>
    if !(ACTIONS.contains hookPayload.action) || !(pr.state == "open") then
      .ok []
    else
      .ok (validate config pr fetch)

/-- The status writes contained in a trace, in order. -/
def statusWrites (effects : List Effect) : List CommitStatus :=
  effects.filterMap (fun e =>
    match e with
    | Effect.setStatus st => some st
    | Effect.fetchTemplate => none)

/-! ## Part 4: helper characterisations -/

/-- A declarative reading of one token matching
`^(?:[-\w]+\/[-\w]+)?#\d+$`: an optional `owner/repo` prefix over `[-\w]`,
then `#`, then one or more digits, covering the whole token. -/
def IssueReferenceToken (t : List Char) : Prop :=
  ∃ p d, t = p ++ '#' :: d ∧ d ≠ [] ∧ (∀ c ∈ d, c.isDigit = true) ∧
    (p = [] ∨ ∃ x y, p = x ++ '/' :: y ∧ x ≠ [] ∧ y ≠ [] ∧
      (∀ c ∈ x, isWordDash c = true) ∧ (∀ c ∈ y, isWordDash c = true))

theorem issue_pattern_rmatch_iff (t : List Char) :
    ISSUE_PATTERN.rmatch t = true ↔ IssueReferenceToken t := by
  rw [ISSUE_PATTERN, cat_rmatch_iff]
  constructor
  · rintro ⟨p, rest, hsplit, hp, hrest⟩
    rw [cat_rmatch_iff] at hrest
    rcases hrest with ⟨u, d, hrest_eq, hu, hd⟩
    rw [chr_rmatch_iff] at hu
    subst hu
    rw [plus_cls_rmatch_iff] at hd
    refine ⟨p, d, by simp [hsplit, hrest_eq], hd.1, hd.2, ?_⟩
    rw [opt_rmatch_iff] at hp
    rcases hp with hp | hp
    · exact Or.inl hp
    · right
      rw [cat_rmatch_iff] at hp
      rcases hp with ⟨x, rest2, hp_eq, hx, hrest2⟩
      rw [plus_cls_rmatch_iff] at hx
      rw [cat_rmatch_iff] at hrest2
      rcases hrest2 with ⟨u2, y, hrest2_eq, hu2, hy⟩
      rw [chr_rmatch_iff] at hu2
      subst hu2
      rw [plus_cls_rmatch_iff] at hy
      exact ⟨x, y, by simp [hp_eq, hrest2_eq], hx.1, hy.1, hx.2, hy.2⟩
  · rintro ⟨p, d, ht, hd_ne, hd_dig, hp⟩
    refine ⟨p, '#' :: d, ht, ?_, ?_⟩
    · rw [opt_rmatch_iff]
      rcases hp with hp | ⟨x, y, hp_eq, hx_ne, hy_ne, hx, hy⟩
      · exact Or.inl hp
      · right
        rw [cat_rmatch_iff]
        refine ⟨x, '/' :: y, by simp [hp_eq], ?_, ?_⟩
        · exact (plus_cls_rmatch_iff _ _).mpr ⟨hx_ne, hx⟩
        · rw [cat_rmatch_iff]
          exact ⟨['/'], y, rfl, (chr_rmatch_iff _ _).mpr rfl,
            (plus_cls_rmatch_iff _ _).mpr ⟨hy_ne, hy⟩⟩
    · rw [cat_rmatch_iff]
      exact ⟨['#'], d, rfl, (chr_rmatch_iff _ _).mpr rfl,
        (plus_cls_rmatch_iff _ _).mpr ⟨hd_ne, hd_dig⟩⟩

/-- JavaScript `String.prototype.split` generalised to a class of separator
characters, used to express the spec's words "split on whitespace". -/
def splitOnPred (p : Char → Bool) : List Char → List (List Char)
  | [] => [[]]
  | c :: w =>
    if p c then [] :: splitOnPred p w
    else
      match splitOnPred p w with
      | [] => [[c]]
      | t :: ts => (c :: t) :: ts

/-- Modelled from the spec: "body (split on whitespace) contains a token
matching an issue-reference pattern".  This is the claim's reading of
`containsIssueNumber`, splitting on the whole JavaScript whitespace class
rather than on the space character; it exists to be compared against the
source translation `containsIssueNumber`. -/
def containsIssueNumberSplitWhitespace (str : String) : Bool :=
  (splitOnPred isJsSpace str.data).any (fun s => testAnchored ISSUE_PATTERN s)

/-! ## Part 5: the claims -/

/-- C1: the claim states the Template evaluator fails iff the trimmed body
EQUALS the trimmed template.  The code does the opposite: `_validateTemplate`
throws when `_differsFromPrTemplate(body, template)` is true, i.e. when the
trimmed body is NOT equal to the trimmed template, even though the thrown
message says "PR's body is the same as template".  At body
"An actual description" against template "Describe your change here" with
`was-adjusted` enabled, the code fails; at body equal to the template it
passes. -/
theorem templateEvaluator_inverted_comparison :
    validateTemplate "An actual description"
      (.ok (some "Describe your change here")) ⟨some true⟩ =
      .error "PR's body is the same as template" ∧
    validateTemplate "Describe your change here"
      (.ok (some "Describe your change here")) ⟨some true⟩ = .ok () ∧
    differsFromPrTemplate "An actual description" "Describe your change here" = true := by
  exact ⟨rfl, rfl, rfl⟩

/-- C2 counterexample: a rejected template fetch does not propagate out of
`execute`; the `catch` in `validate` converts it into a failure status write
carrying the network error's message.  Here every rule evaluator passes,
the fetch rejects with "connect ECONNREFUSED", and `execute` returns
normally with a trace that contains a status write. -/
theorem fetchFailure_converted_to_status_write :
    execute defaultConfig
      ⟨"opened",
       some ⟨"open", 1, some "Add cross-repo link support", some "Closes #42", "abc"⟩,
       ⟨"repo", "owner/repo", "owner"⟩⟩
      (.error "connect ECONNREFUSED") =
    .ok [Effect.fetchTemplate,
         Effect.setStatus ⟨"connect ECONNREFUSED", "failure", "zappr/pr/specification"⟩] := by
  rfl

/-- C2 amended: an error raised by the template fetch while gathering the
evaluator results is caught by `validate` and converted into a single
failure status write whose description is the error's message; it does not
abort the flow.  (Stated for runs in which the synchronous Title and Body
evaluators pass, so that the fetch error is the error that surfaces.) -/
theorem fetchFailure_becomes_failure_status (config : Config) (pr : PullRequest)
    (e : String)
    (ht : validateTitle (pr.title.getD "") (titleChecksOf config) = .ok ())
    (hb : validateBody (pr.body.getD "") (bodyChecksOf config) = .ok ()) :
    validate config pr (.error e) =
      [Effect.fetchTemplate, Effect.setStatus (status e "failure")] := by
  simp only [validate, ht, hb, validateTemplate]

/-- C2 amended, witness at a concrete input. -/
theorem fetchFailure_becomes_failure_status_witness :
    validate defaultConfig
      ⟨"open", 7, some "A reasonably long title", some "Closes #42", "abc"⟩
      (.error "socket hang up") =
      [Effect.fetchTemplate, Effect.setStatus (status "socket hang up" "failure")] :=
  fetchFailure_becomes_failure_status defaultConfig
    ⟨"open", 7, some "A reasonably long title", some "Closes #42", "abc"⟩
    "socket hang up" (by rfl) (by rfl)

/-- C3 counterexample: the three evaluators do not all run on every check
run.  `_validateTitle` is synchronous and throws while the `Promise.all`
argument array is still being built, so with the too-short title "Fix" the
template fetch is never issued (the trace has no `fetchTemplate` effect) and
the Body evaluator never runs. -/
theorem titleFailure_skips_template_fetch :
    validate defaultConfig ⟨"open", 2, some "Fix", some "Closes #42", "abc"⟩
      (.ok none) =
      [Effect.setStatus
        ⟨"PR's title is too short (3/8)", "failure", "zappr/pr/specification"⟩] ∧
    Effect.fetchTemplate ∉
      validate defaultConfig ⟨"open", 2, some "Fix", some "Closes #42", "abc"⟩
        (.ok none) := by
  exact ⟨rfl, by decide⟩

/-- C3 amended: the Template evaluator's network request is issued exactly
when the synchronous Title evaluator passes; a Title failure throws before
`_validateTemplate` is called, while a Body failure cannot prevent the fetch
because `_validateTemplate` is called (and the fetch issued) first. -/
theorem template_fetch_iff_title_passes (config : Config) (pr : PullRequest)
    (fetch : Except String (Option String)) :
    Effect.fetchTemplate ∈ validate config pr fetch ↔
      validateTitle (pr.title.getD "") (titleChecksOf config) = .ok () := by
  cases h : validateTitle (pr.title.getD "") (titleChecksOf config) with
  | error e => simp [validate, h]
  | ok u => cases u; simp [validate, h]

/-- C8: with a pull-request object present, an event whose action is outside
the four eligible ones or whose pull request is not open makes `execute`
return without invoking any collaborator: no fetch, no status write, no
evaluator result is consulted. -/
theorem ineligible_event_is_noop (config : Config) (payload : HookPayload)
    (fetch : Except String (Option String)) (pr : PullRequest)
    (hpr : payload.pullRequest = some pr)
    (h : ¬(payload.action ∈ ACTIONS ∧ pr.state = "open")) :
    execute config payload fetch = .ok [] := by
  simp only [execute, hpr]
  rw [if_pos]
  rw [Bool.or_eq_true]
  rcases not_and_or.mp h with h1 | h2
  · left
    simpa using h1
  · right
    simpa using h2

/-- C8 witness: a `labeled` action is a no-op. -/
theorem ineligible_event_is_noop_witness :
    execute defaultConfig
      ⟨"labeled", some ⟨"open", 3, some "t", some "b", "abc"⟩,
       ⟨"repo", "owner/repo", "owner"⟩⟩ (.ok none) = .ok [] :=
  ineligible_event_is_noop defaultConfig
    ⟨"labeled", some ⟨"open", 3, some "t", some "b", "abc"⟩,
     ⟨"repo", "owner/repo", "owner"⟩⟩ (.ok none)
    ⟨"open", 3, some "t", some "b", "abc"⟩ rfl (by decide)

/-- C10: when the payload has no `pull_request` object, the guard branch is
taken and its log line dereferences `pr.number` on `undefined`, so `execute`
raises a TypeError instead of returning as a silent no-op. -/
theorem missing_pull_request_raises (config : Config) (payload : HookPayload)
    (fetch : Except String (Option String))
    (h : payload.pullRequest = none) :
    execute config payload fetch = .error prUndefinedTypeError := by
  simp only [execute, h]

/-- C10 witness: an `opened` payload without a pull request raises. -/
theorem missing_pull_request_raises_witness :
    execute defaultConfig ⟨"opened", none, ⟨"repo", "owner/repo", "owner"⟩⟩
      (.ok none) = .error prUndefinedTypeError :=
  missing_pull_request_raises defaultConfig
    ⟨"opened", none, ⟨"repo", "owner/repo", "owner"⟩⟩ (.ok none) rfl

/-- C6: the Title evaluator fails iff the length check is enabled and the
title's length is at most the required length (equality fails; a title must
strictly exceed the threshold to pass); a disabled check passes every title;
with the configuration entry absent, enablement defaults to true and the
required length to 8. -/
theorem titleEvaluator_fail_iff (title : String) (checks : TitleChecks) :
    ((validateTitle title checks ≠ .ok ()) ↔
      (titleLengthEnabled checks = true ∧
        title.length ≤ titleRequiredLength checks)) ∧
    titleLengthEnabled emptyTitleChecks = true ∧
    titleRequiredLength emptyTitleChecks = 8 := by
  refine ⟨?_, rfl, rfl⟩
  cases he : titleLengthEnabled checks
  · simp [validateTitle, he]
  · by_cases hl : title.length ≤ titleRequiredLength checks
    · have hshort : isLongEnough title (titleRequiredLength checks) = false := by
        simp [isLongEnough]
        omega
      simp [validateTitle, he, hshort, hl]
    · have hlong : isLongEnough title (titleRequiredLength checks) = true := by
        simp [isLongEnough]
        omega
      simp [validateTitle, he, hlong, hl]

/-- C7: every invocation of `validate` issues exactly one status write; its
context is always `zappr/pr/specification`; its state is `success` exactly
when all three evaluators pass, in which case it carries the fixed success
description, and `failure` otherwise. -/
theorem validate_single_status_write (config : Config) (pr : PullRequest)
    (fetch : Except String (Option String)) :
    ∃ st, statusWrites (validate config pr fetch) = [st] ∧
      st.context = "zappr/pr/specification" ∧
      (st.state = "success" ∨ st.state = "failure") ∧
      (st.state = "success" ↔
        (validateTitle (pr.title.getD "") (titleChecksOf config) = .ok () ∧
         validateTemplate (pr.body.getD "") fetch (templateChecksOf config) = .ok () ∧
         validateBody (pr.body.getD "") (bodyChecksOf config) = .ok ())) ∧
      (st = status "PR has passed specification checks" "success" ↔
        (validateTitle (pr.title.getD "") (titleChecksOf config) = .ok () ∧
         validateTemplate (pr.body.getD "") fetch (templateChecksOf config) = .ok () ∧
         validateBody (pr.body.getD "") (bodyChecksOf config) = .ok ())) := by
  cases ht : validateTitle (pr.title.getD "") (titleChecksOf config) with
  | error e =>
    refine ⟨status e "failure", ?_, rfl, Or.inr rfl, ?_, ?_⟩
    · simp [validate, ht, statusWrites]
    · simp [status, ht]
    · simp [status, ht, CommitStatus.mk.injEq]
  | ok u =>
    cases u
    cases hb : validateBody (pr.body.getD "") (bodyChecksOf config) with
    | error e =>
      refine ⟨status e "failure", ?_, rfl, Or.inr rfl, ?_, ?_⟩
      · simp [validate, ht, hb, statusWrites]
      · simp [status, hb]
      · simp [status, hb, CommitStatus.mk.injEq]
    | ok u =>
      cases u
      cases htm : validateTemplate (pr.body.getD "") fetch (templateChecksOf config) with
      | error e =>
        refine ⟨status e "failure", ?_, rfl, Or.inr rfl, ?_, ?_⟩
        · simp [validate, ht, hb, htm, statusWrites]
        · simp [status, htm]
        · simp [status, htm, CommitStatus.mk.injEq]
      | ok u =>
        cases u
        refine ⟨status "PR has passed specification checks" "success",
          ?_, rfl, Or.inl rfl, ?_, ?_⟩
        · simp [validate, ht, hb, htm, statusWrites]
        · simp [status, ht, hb, htm]
        · simp [status, ht, hb, htm]

/-- C4: the Body evaluator passes iff at least one enabled sub-check
(issue-reference, URL, minimum-length) returns true; with every sub-check
disabled (any configured length), it fails. -/
theorem bodyEvaluator_pass_iff (body : String) (checks : BodyChecks) :
    (validateBody body checks = .ok () ↔
      ((bodyIssueEnabled checks = true ∧ containsIssueNumber body = true) ∨
       (bodyUrlEnabled checks = true ∧ containsUrl body = true) ∨
       (bodyLengthEnabled checks = true ∧
         isLongEnough body (bodyRequiredLength checks) = true))) ∧
    (∀ n : Option Nat,
      validateBody body ⟨some ⟨some false, n⟩, some false, some false⟩ =
        .error "PR's body failed check undefined") := by
  constructor
  · cases hI : bodyIssueEnabled checks <;>
      cases hU : bodyUrlEnabled checks <;>
        cases hL : bodyLengthEnabled checks <;>
          cases hri : containsIssueNumber body <;>
            cases hru : containsUrl body <;>
              cases hrl : isLongEnough body (bodyRequiredLength checks) <;>
                simp [validateBody, bodyChecksInOrder, bodyReduceStep,
                  hI, hU, hL, hri, hru, hrl]
  · intro n
    simp [validateBody, bodyChecksInOrder, bodyReduceStep,
      bodyIssueEnabled, bodyUrlEnabled, bodyLengthEnabled]

/-- The name of the first enabled-and-failing sub-check in the fixed
priority order issue-number, URL, minimum-length. -/
def firstFailingCheckName (body : String) (checks : BodyChecks) : Option String :=
  ((bodyChecksInOrder body checks).find? (fun item => item.2.1 && !item.2.2)).map
    (fun item => item.1)

/-- C5: whenever the Body evaluator fails while at least one sub-check is
enabled, the failure message names exactly the first failing enabled
sub-check in the fixed priority order issue-number, URL, minimum-length
(and, the model being a function of its inputs, the choice is deterministic
for the same inputs). -/
theorem bodyFailure_names_first_failing_check (body : String)
    (checks : BodyChecks) (msg : String)
    (h : validateBody body checks = .error msg)
    (henabled : bodyIssueEnabled checks = true ∨ bodyUrlEnabled checks = true ∨
      bodyLengthEnabled checks = true) :
    ∃ name, firstFailingCheckName body checks = some name ∧
      msg = "PR's body failed check '" ++ name ++ "'" := by
  cases hI : bodyIssueEnabled checks <;>
    cases hU : bodyUrlEnabled checks <;>
      cases hL : bodyLengthEnabled checks <;>
        cases hri : containsIssueNumber body <;>
          cases hru : containsUrl body <;>
            cases hrl : isLongEnough body (bodyRequiredLength checks) <;>
              simp_all [validateBody, bodyChecksInOrder, bodyReduceStep,
                firstFailingCheckName, List.find?]

/-- C5 witness: on the body "tiny" with the default configuration, all three
enabled sub-checks fail and the message names `contains-issue-number`. -/
theorem bodyFailure_names_first_failing_check_witness :
    ∃ name, firstFailingCheckName "tiny" emptyBodyChecks = some name ∧
      "PR's body failed check 'contains-issue-number'" =
        "PR's body failed check '" ++ name ++ "'" :=
  bodyFailure_names_first_failing_check "tiny" emptyBodyChecks
    "PR's body failed check 'contains-issue-number'" (by rfl) (Or.inl rfl)

/-- C9 counterexample: `containsPattern` splits on the space character, not
on general whitespace.  The body containing a newline-separated issue
reference token `#12` is rejected by the code, while the claim's
whitespace-split reading accepts it. -/
theorem containsIssueNumber_splits_on_space_only :
    containsIssueNumber "see\n#12" = false ∧
    containsIssueNumberSplitWhitespace "see\n#12" = true := by
  decide

/-- C9 amended: the issue-reference sub-check returns true iff the body,
split on the space character (not on general whitespace), contains a token
that as a whole matches the issue-reference pattern: an optional
`owner/repo` prefix followed by `#` and one or more digits, anchored to the
entire token. -/
theorem containsIssueNumber_iff_space_token (body : String) :
    containsIssueNumber body = true ↔
      ∃ t ∈ splitOnChar ' ' body.data, IssueReferenceToken t := by
  rw [containsIssueNumber, containsPattern, List.any_eq_true]
  constructor
  · rintro ⟨t, ht, htest⟩
    exact ⟨t, ht, (issue_pattern_rmatch_iff t).mp htest⟩
  · rintro ⟨t, ht, htok⟩
    exact ⟨t, ht, (issue_pattern_rmatch_iff t).mpr htok⟩
